import Mathlib

/-!
Shallow embedding of `src/main.py` (a FastAPI example application).

Response bodies are modelled as ordered association lists of JSON-like
values (`Dict`), matching Python dict literal order.  Numbers are `ℚ`,
following the spec, which prescribes plain arithmetic with no
rounding/currency semantics.  Python truthiness of the optional fields
(`if item.tax:`, `if q:`) is modelled explicitly: an optional number is
truthy when present and nonzero, an optional string when present and
nonempty.  The source declares two functions named `create_item` (the
POST and the PUT handler); Lean requires distinct names, so the PUT one
is `create_item_put`.  Likewise the second (shadowed) GET handler named
`read_item` is `read_item_second`.
-/

namespace Main

/-- JSON-like values appearing in request and response bodies. -/
inductive JsonVal where
  | str : String → JsonVal
  | num : ℚ → JsonVal
  | null : JsonVal
deriving DecidableEq, Repr

/-- A Python dict as sent over the wire: ordered keys to JSON values. -/
abbrev Dict := List (String × JsonVal)

/-- The `Item` pydantic model of `src/main.py`: required `name`/`price`,
optional `description`/`tax` defaulting to `None`. -/
structure Item where
  name : String
  description : Option String := none
  price : ℚ
  tax : Option ℚ := none
deriving DecidableEq, Repr

/-- Serialisation of an optional string field, `None` becoming null. -/
def optStr : Option String → JsonVal
  | none => .null
  | some s => .str s

/-- Serialisation of an optional numeric field, `None` becoming null. -/
def optNum : Option ℚ → JsonVal
  | none => .null
  | some x => .num x

/-- `item.dict()`: all four declared fields, in declaration order,
absent optional fields appearing as null. -/
def Item.dict (item : Item) : Dict :=
  [("name", .str item.name),
   ("description", optStr item.description),
   ("price", .num item.price),
   ("tax", optNum item.tax)]

/-- Python truthiness of an optional float: `None` and `0` are falsy. -/
def truthyOptNum : Option ℚ → Bool
  | none => false
  | some x => decide (x ≠ 0)

/-- Python truthiness of an optional string: `None` and `""` are falsy. -/
def truthyOptStr : Option String → Bool
  | none => false
  | some s => decide (s ≠ "")

/-- `d[k] = v` / one step of `dict.update`: overwrite in place if the
key exists, otherwise append at the end (Python insertion order). -/
def dictSet (d : Dict) (k : String) (v : JsonVal) : Dict :=
  if d.any (fun p => p.1 == k) then
    d.map (fun p => if p.1 == k then (k, v) else p)
  else d ++ [(k, v)]

/-- `{**a, **b}`: merge `b` into `a`, later keys overriding. -/
def dictMerge (a b : Dict) : Dict :=
  b.foldl (fun acc p => dictSet acc p.1 p.2) a

/-- Key lookup in a dict. -/
def dictGet (d : Dict) (k : String) : Option JsonVal :=
  (List.find? (fun p => p.1 == k) d).map (fun p => p.2)

/-- The `fake_items_db` constant of `src/main.py`: three records. -/
def fake_items_db : List Dict :=
  [[("name", .str "Foo"), ("description", .str "There comes my hero"),
    ("price", .num 42), ("tax", .num (16/5))],
   [("name", .str "Bar"), ("description", .str "The bartenders"),
    ("price", .num 62), ("tax", .num (19/10))],
   [("name", .str "Baz"), ("description", .str "The beautiful bartender"),
    ("price", .num 12), ("tax", .num (19/10))]]

/-- GET `/`. -/
def root : Dict := [("message", .str "Hello World")]

/-- GET `/users/me`. -/
def read_user_me : Dict := [("user_id", .str "the current user")]

/-- GET `/items/{item_id}`, first registration: optional query `q`,
included in the response only when truthy. -/
def read_item (item_id : String) (q : Option String) : Dict :=
  if truthyOptStr q then [("item_id", .str item_id), ("q", optStr q)]
  else [("item_id", .str item_id)]

/-- GET `/items/{item_id}`, second registration (shadowed duplicate):
no query parameter. -/
def read_item_second (item_id : String) : Dict :=
  [("item_id", .str item_id)]

/-- The addition `item.price + item.tax`: adding to an absent (`None`)
tax has no value — in Python it would raise — so the result is `none`
in that case, modelling the potential crash explicitly. -/
def addTax : Option ℚ → ℚ → Option ℚ
  | none, _ => none
  | some t, p => some (p + t)

/-- POST `/items/`: `item_dict = item.dict()`; if `item.tax` is truthy,
set `item_dict["price_with_tax"] = item.price + item.tax`.  A `none`
result models the handler crashing (the addition applied to an absent
tax); the safety claim is that this never happens. -/
def create_item (item : Item) : Option Dict :=
  let item_dict := item.dict
  if truthyOptNum item.tax then
    match addTax item.tax item.price with
    | none => none
    | some price_with_tax =>
        some (dictSet item_dict "price_with_tax" (.num price_with_tax))
  else some item_dict

/-- PUT `/items/{item_id}` (named `create_item` in the source as well):
`{"item_id": item_id, **item.dict()}`. -/
def create_item_put (item_id : ℤ) (item : Item) : Dict :=
  dictMerge [("item_id", .num (item_id : ℚ))] item.dict

/-- HTTP methods used by the application. -/
inductive Method where
  | get | post | put
deriving DecidableEq, Repr

/-- One tag per handler function, in source order. -/
inductive HandlerTag where
  | root | read_user_me | read_item | read_item_second
  | create_item | create_item_put
deriving DecidableEq, Repr

/-- The route registrations of `src/main.py`, in decorator order:
note the two GET registrations for the same `/items/{item_id}`
template. -/
def routeTable : List (Method × String × HandlerTag) :=
  [(.get, "/", .root),
   (.get, "/users/me", .read_user_me),
   (.get, "/items/{item_id}", .read_item),
   (.get, "/items/{item_id}", .read_item_second),
   (.post, "/items/", .create_item),
   (.put, "/items/{item_id}", .create_item_put)]

/-- First-registration-wins dispatch on method and path template. -/
def dispatch (m : Method) (tpl : String) : Option HandlerTag :=
  (List.find? (fun r => r.1 == m && r.2.1 == tpl) routeTable).map
    (fun r => r.2.2)

/-- A field-level validation problem: the field is missing, or present
with the wrong shape. -/
inductive VError where
  | missing (field : String)
  | wrongType (field : String)
deriving DecidableEq, Repr

/-- The field a validation problem refers to. -/
def VError.field : VError → String
  | .missing f => f
  | .wrongType f => f

/-- Modelled from the spec: the external framework (pydantic) decodes a
required text field, failing when the key is absent or not text. -/
def checkStrReq (body : Dict) (k : String) : Except VError String :=
  match dictGet body k with
  | none => .error (.missing k)
  | some (.str s) => .ok s
  | some _ => .error (.wrongType k)

/-- Modelled from the spec: decoding of a required numeric field. -/
def checkNumReq (body : Dict) (k : String) : Except VError ℚ :=
  match dictGet body k with
  | none => .error (.missing k)
  | some (.num x) => .ok x
  | some _ => .error (.wrongType k)

/-- Modelled from the spec: decoding of an optional text field; absent
or null means unset. -/
def checkStrOpt (body : Dict) (k : String) : Except VError (Option String) :=
  match dictGet body k with
  | none => .ok none
  | some .null => .ok none
  | some (.str s) => .ok (some s)
  | some _ => .error (.wrongType k)

/-- Modelled from the spec: decoding of an optional numeric field. -/
def checkNumOpt (body : Dict) (k : String) : Except VError (Option ℚ) :=
  match dictGet body k with
  | none => .ok none
  | some .null => .ok none
  | some (.num x) => .ok (some x)
  | some _ => .error (.wrongType k)

/-- The error list contributed by one field check. -/
def errList {α : Type} : Except VError α → List VError
  | .error e => [e]
  | .ok _ => []

/-- The field-level problems a body exhibits against the `Item` shape,
in field declaration order. -/
def itemErrors (body : Dict) : List VError :=
  errList (checkStrReq body "name") ++ errList (checkStrOpt body "description")
    ++ errList (checkNumReq body "price") ++ errList (checkNumOpt body "tax")

/-- Modelled from the spec: the boundary validation step decoding a
request body into the `Item` shape, collecting field-level detail for
every bad field (`ValidationError` kind), performed by the external
framework before the handler runs. -/
def parseItem (body : Dict) : Except (List VError) Item :=
  match checkStrReq body "name", checkStrOpt body "description",
        checkNumReq body "price", checkNumOpt body "tax" with
  | .ok n, .ok d, .ok p, .ok t =>
      .ok { name := n, description := d, price := p, tax := t }
  | _, _, _, _ => .error (itemErrors body)

/-- The mutable process state: just the `fake_items_db` list. -/
structure AppState where
  db : List Dict
deriving DecidableEq, Repr

/-- A request to one of the application's endpoints. -/
inductive Request where
  | root
  | users_me
  | get_item (item_id : String) (q : Option String)
  | post_item (body : Dict)
  | put_item (item_id : ℤ) (body : Dict)

/-- The observable outcome of handling one request. -/
inductive Response where
  | ok (d : Dict)
  | validationError (errs : List VError)
  | crash
deriving DecidableEq, Repr

/-- The whole application as a state-passing function: validate the
body where one is declared, run the matching (reachable) handler, and
thread the process state through. -/
def handleRequest (st : AppState) (req : Request) : Response × AppState :=
  match req with
  | .root => (.ok root, st)
  | .users_me => (.ok read_user_me, st)
  | .get_item item_id q => (.ok (read_item item_id q), st)
  | .post_item body =>
      (match parseItem body with
       | .error errs => .validationError errs
       | .ok item =>
           match create_item item with
           | some d => .ok d
           | none => .crash, st)
  | .put_item item_id body =>
      (match parseItem body with
       | .error errs => .validationError errs
       | .ok item => .ok (create_item_put item_id item), st)

/-! Helper lemmas shared between the claim theorems. -/

/-- The PUT merge in closed form: since `Item.dict` never produces an
`item_id` key, the merge is a plain cons. -/
theorem create_item_put_eq (item_id : ℤ) (item : Item) :
    create_item_put item_id item =
      ("item_id", JsonVal.num (item_id : ℚ)) :: item.dict := by
  simp [create_item_put, dictMerge, Item.dict, dictSet, List.foldl]

/-- A failing `name` check makes validation fail, keeping the detail. -/
theorem parseItem_error_name (body : Dict) (e : VError)
    (h : checkStrReq body "name" = .error e) :
    parseItem body = .error (itemErrors body) ∧ e ∈ itemErrors body := by
  constructor
  · unfold parseItem
    rw [h]
  · simp [itemErrors, h, errList]

/-- A failing `price` check makes validation fail, keeping the detail. -/
theorem parseItem_error_price (body : Dict) (e : VError)
    (h : checkNumReq body "price" = .error e) :
    parseItem body = .error (itemErrors body) ∧ e ∈ itemErrors body := by
  constructor
  · unfold parseItem
    rw [h]
    cases checkStrReq body "name" <;>
      cases checkStrOpt body "description" <;>
        cases checkNumOpt body "tax" <;> rfl
  · simp [itemErrors, h, errList]

/-! The claim theorems. -/

/-- C1: for every valid `Item` body whose `tax` field is present and
non-zero, POST `/items/` returns all decoded item fields plus an extra
`price_with_tax` field equal to the plain sum `price + tax`. -/
theorem post_items_tax_truthy (item : Item) (t : ℚ)
    (ht : item.tax = some t) (h0 : t ≠ 0) :
    create_item item =
      some (item.dict ++ [("price_with_tax", JsonVal.num (item.price + t))]) := by
  simp [create_item, truthyOptNum, ht, h0, addTax, dictSet, Item.dict]

/-- Witness for C1 at a concrete item. -/
theorem post_items_tax_truthy_witness :
    create_item { name := "Foo", price := 42, tax := some 3 } =
      some [("name", JsonVal.str "Foo"), ("description", JsonVal.null),
            ("price", JsonVal.num 42), ("tax", JsonVal.num 3),
            ("price_with_tax", JsonVal.num 45)] := by
  have h := post_items_tax_truthy { name := "Foo", price := 42, tax := some 3 }
    3 rfl (by norm_num)
  rw [h]
  norm_num [Item.dict, optStr, optNum]

/-- C2: for every valid `Item` body whose `tax` field is omitted or
zero, POST `/items/` returns the decoded item mapping and the response
has no `price_with_tax` field. -/
theorem post_items_tax_falsy (item : Item)
    (h : item.tax = none ∨ item.tax = some 0) :
    create_item item = some item.dict ∧
      dictGet item.dict "price_with_tax" = none := by
  rcases h with h | h <;>
    simp [create_item, truthyOptNum, h, Item.dict, dictGet, List.find?]

/-- Witness for C2 at a concrete item with `tax` omitted. -/
theorem post_items_tax_falsy_witness :
    create_item { name := "Bar", price := 62 } =
      some (Item.dict { name := "Bar", price := 62 }) ∧
    dictGet (Item.dict { name := "Bar", price := 62 }) "price_with_tax" = none :=
  post_items_tax_falsy { name := "Bar", price := 62 } (Or.inl rfl)

/-- C3: for every `item_id` and non-empty `q`, the reachable GET
`/items/{item_id}` handler returns exactly the two-field mapping with
`item_id` and `q`. -/
theorem get_item_q_nonempty (item_id q : String) (hq : q ≠ "") :
    read_item item_id (some q) =
      [("item_id", JsonVal.str item_id), ("q", JsonVal.str q)] := by
  simp [read_item, truthyOptStr, hq, optStr]

/-- Witness for C3 at a concrete path parameter and query. -/
theorem get_item_q_nonempty_witness :
    read_item "abc" (some "x") =
      [("item_id", JsonVal.str "abc"), ("q", JsonVal.str "x")] :=
  get_item_q_nonempty "abc" "x" (by decide)

/-- C4: for every `item_id`, with `q` absent or the empty string, the
reachable GET `/items/{item_id}` handler returns exactly the one-field
mapping with `item_id` and no `q` field. -/
theorem get_item_q_absent (item_id : String) :
    read_item item_id none = [("item_id", JsonVal.str item_id)] ∧
    read_item item_id (some "") = [("item_id", JsonVal.str item_id)] := by
  constructor <;> simp [read_item, truthyOptStr]

/-- C5: the route table registers two GET handlers for the identical
`/items/{item_id}` template; first-registration-wins dispatch reaches
only the first (the one with the optional `q`), and with `q` absent the
second handler returns the same response, so it is dead code whose
removal changes no observable behaviour. -/
theorem duplicate_route_dead_code :
    ((routeTable.filter
        (fun r => r.1 == Method.get && r.2.1 == "/items/{item_id}")).map
          (fun r => r.2.2)
      = [HandlerTag.read_item, HandlerTag.read_item_second]) ∧
    dispatch Method.get "/items/{item_id}" = some HandlerTag.read_item ∧
    ∀ item_id : String, read_item item_id none = read_item_second item_id :=
  ⟨by decide, by decide, fun _ => rfl⟩

/-- C6: PUT `/items/{item_id}` returns `{"item_id": item_id}` merged
with all decoded item fields, absent optional fields serialised as
null; in particular `item_id = 5` with body name Foo, price 10 gives
the five-field mapping. -/
theorem put_items_merge :
    (∀ (item_id : ℤ) (item : Item),
        create_item_put item_id item =
          ("item_id", JsonVal.num (item_id : ℚ)) :: item.dict) ∧
    create_item_put 5 { name := "Foo", price := 10 } =
      [("item_id", JsonVal.num 5), ("name", JsonVal.str "Foo"),
       ("description", JsonVal.null), ("price", JsonVal.num 10),
       ("tax", JsonVal.null)] := by
  refine ⟨create_item_put_eq, ?_⟩
  rw [create_item_put_eq]
  norm_num [Item.dict, optStr, optNum]

/-- C7: a POST `/items/` body missing `name` or `price`, or carrying it
with the wrong shape, yields a structured validation failure with
field-level detail naming the bad field — never a crash of the
handler. -/
theorem post_items_validation (body : Dict)
    (h : dictGet body "name" = none ∨ dictGet body "price" = none ∨
         (∃ j, dictGet body "name" = some j ∧ ∀ s, j ≠ JsonVal.str s) ∨
         (∃ j, dictGet body "price" = some j ∧ ∀ x, j ≠ JsonVal.num x)) :
    ∃ errs, parseItem body = .error errs ∧
      ∃ e ∈ errs, e.field = "name" ∨ e.field = "price" := by
  have main : (∃ e, checkStrReq body "name" = .error e ∧ e.field = "name") ∨
      (∃ e, checkNumReq body "price" = .error e ∧ e.field = "price") := by
    rcases h with h | h | ⟨j, hj, hns⟩ | ⟨j, hj, hnn⟩
    · exact Or.inl ⟨.missing "name", by simp [checkStrReq, h], rfl⟩
    · exact Or.inr ⟨.missing "price", by simp [checkNumReq, h], rfl⟩
    · refine Or.inl ⟨.wrongType "name", ?_, rfl⟩
      cases j with
      | str s => exact absurd rfl (hns s)
      | num x => simp [checkStrReq, hj]
      | null => simp [checkStrReq, hj]
    · refine Or.inr ⟨.wrongType "price", ?_, rfl⟩
      cases j with
      | num x => exact absurd rfl (hnn x)
      | str s => simp [checkNumReq, hj]
      | null => simp [checkNumReq, hj]
  rcases main with ⟨e, he, hf⟩ | ⟨e, he, hf⟩
  · obtain ⟨hp, hm⟩ := parseItem_error_name body e he
    exact ⟨itemErrors body, hp, e, hm, Or.inl hf⟩
  · obtain ⟨hp, hm⟩ := parseItem_error_price body e he
    exact ⟨itemErrors body, hp, e, hm, Or.inr hf⟩

/-- Witness for C7 at the empty body, which misses every field. -/
theorem post_items_validation_witness :
    ∃ errs, parseItem [] = .error errs ∧
      ∃ e ∈ errs, VError.field e = "name" ∨ VError.field e = "price" :=
  post_items_validation [] (Or.inl rfl)

/-- C8: `fake_items_db` is a frame of every handler — the state after
any request equals the state before, starting from `fake_items_db` it
stays `fake_items_db`, and no response depends on the list's
contents. -/
theorem fake_items_db_readonly (req : Request) :
    (∀ st : AppState, (handleRequest st req).2 = st) ∧
    (handleRequest ⟨fake_items_db⟩ req).2.db = fake_items_db ∧
    ∀ st st2 : AppState, (handleRequest st req).1 = (handleRequest st2 req).1 := by
  refine ⟨?_, ?_, ?_⟩ <;> cases req <;> simp [handleRequest]

/-- C9: the `item_id` field of the PUT response always equals the path
parameter: `Item` has no `item_id` field, so the merge never rebinds
the key. -/
theorem put_item_id_not_overridden (item_id : ℤ) (item : Item) :
    dictGet (create_item_put item_id item) "item_id" =
      some (JsonVal.num (item_id : ℚ)) := by
  rw [create_item_put_eq]
  simp [dictGet, Item.dict]

/-- C10: POST `/items/` is total on every validated `Item`: the sum
`price + tax` is evaluated only under the truthiness guard, never on an
absent tax, so the handler returns normally (never the crash value) for
every `Item` the schema admits. -/
theorem post_items_total (item : Item) :
    ∃ d, create_item item = some d := by
  cases ht : item.tax with
  | none => exact ⟨item.dict, by simp [create_item, truthyOptNum, ht]⟩
  | some t =>
    by_cases h0 : t = 0
    · exact ⟨item.dict, by simp [create_item, truthyOptNum, ht, h0]⟩
    · exact ⟨dictSet item.dict "price_with_tax" (JsonVal.num (item.price + t)),
        by simp [create_item, truthyOptNum, ht, h0, addTax]⟩

end Main
